import Mathlib

/-!
Verification of the `whyPhantomData` demonstration program (src/src/main.rs).

The program builds observer values (`PrintOnDrop`) and three single-slot
container variants (`MyBox1` over `Box`, the unmarked manual `MyBox2`, the
`PhantomData`-marked `MyBox3`), and makes destruction order observable by
printing one log line per observer when it is dropped.

The embedding below is a small state machine.  The eight observer values the
program ever creates are identified by `ObsId`; a `Machine` carries the
current state of every observer slot, the manual-container heap (address to
content), the allocation counter, and the trace of events so far.  Events
record the printed lines (together with the observer whose destructor emitted
them, for bookkeeping) and the raw heap allocations and releases performed by
the manual containers.  Rust's drop order for each routine (reverse order of
binding declaration) is transcribed into the body of `f1`, `f2`, `f3`.
-/

set_option maxRecDepth 100000

namespace PhantomDemo

/-- The two-state validity flag of an observer (`enum State` in the source). -/
inductive State where
  | INVALID
  | Valid
  deriving DecidableEq

/-- Identifiers for the eight observer values the program creates, named
after their `&'static str` names in the source. -/
inductive ObsId where
  | v1
  | mb1
  | v2a
  | mb2a
  | v2b
  | mb2b
  | v3
  | mb3
  deriving DecidableEq

/-- The inner value of an observer: the source instantiates the generic
parameter `T` of `PrintOnDrop<T>` either at `i32` (the literal 13) or at
`&PrintOnDrop<i32>`, a shared reference to another observer. -/
inductive InnerVal where
  | int (n : Int)
  | ref (id : ObsId)
  deriving DecidableEq

/-- The observer value `struct PrintOnDrop<T>(&'static str, T, State)`;
the tuple fields `.0`, `.1`, `.2` are named `name`, `inner`, `flag` here. -/
structure PrintOnDrop where
  name : String
  inner : InnerVal
  flag : State
  deriving DecidableEq

/-- `PrintOnDrop::new(name, t)`: builds the observer with flag `Valid`. -/
def PrintOnDrop.new (name : String) (t : InnerVal) : PrintOnDrop :=
  { name := name, inner := t, flag := State.Valid }

/-- Rendering of a `State` by `{:?}` (the derived `Debug`). -/
def State.debug : State → String
  | State.INVALID => "INVALID"
  | State.Valid => "Valid"

/-- Rendering of an observer's inner value by `{:?}`: an `i32` prints its
decimal digits; a `&PrintOnDrop` prints the referenced observer's CURRENT
state in the derived tuple-struct format
`PrintOnDrop("name", inner, flag)` (the name, a `&str`, is quoted by
`Debug`).  Reading the referenced observer goes through the store, so the
rendering takes the current store; the `Nat` fuel bounds the dereferencing
depth (the program only ever needs depth 2, so the fuel is never exhausted). -/
def debugInner (σ : ObsId → PrintOnDrop) : Nat → InnerVal → String
  | _, InnerVal.int n => toString n
  | 0, InnerVal.ref _ => "<depth exceeded>"
  | fuel + 1, InnerVal.ref id =>
      let o := σ id
      "PrintOnDrop(\"" ++ o.name ++ "\", " ++ debugInner σ fuel o.inner ++
        ", " ++ State.debug o.flag ++ ")"

/-- Dereferencing depth amply sufficient for this program. -/
def debugFuel : Nat := 8

/-- The line printed by `<PrintOnDrop as Drop>::drop`:
`println!("drop PrintOnDrop({}, {:?}, {:?})", self.0, self.1, self.2)`,
rendered from the observer's state BEFORE its flag is invalidated. -/
def dropLine (σ : ObsId → PrintOnDrop) (id : ObsId) : String :=
  let o := σ id
  "drop PrintOnDrop(" ++ o.name ++ ", " ++ debugInner σ debugFuel o.inner ++
    ", " ++ State.debug o.flag ++ ")"

/-- Events of a program run: a printed destruction-log line (tagged, for
bookkeeping only, with the observer whose destructor printed it), a raw heap
allocation, and a raw heap release (`alloc::alloc` / `dealloc` in the manual
containers). -/
inductive Event where
  | line (id : ObsId) (s : String)
  | alloc (a : Nat)
  | dealloc (a : Nat)
  deriving DecidableEq

/-- The machine state: the store of observer slots, the manual heap mapping
an address to the observer it holds (if allocated), the next fresh address,
and the trace of events so far, in order. -/
structure Machine where
  store : ObsId → PrintOnDrop
  heap : Nat → Option ObsId
  nextAddr : Nat
  trace : List Event

/-- Pointwise update of the observer store. -/
def updStore (σ : ObsId → PrintOnDrop) (id : ObsId) (o : PrintOnDrop) :
    ObsId → PrintOnDrop :=
  fun j => if j = id then o else σ j

/-- Binding an observer variable: writes `PrintOnDrop::new name t` into the
slot `id` (models `v1 = PrintOnDrop::new("v1", 13)` and the construction of
the observers that are immediately moved into containers). -/
def initObs (id : ObsId) (name : String) (t : InnerVal) (m : Machine) :
    Machine :=
  { m with store := updStore m.store id (PrintOnDrop.new name t) }

/-- `<PrintOnDrop as Drop>::drop`: prints the line rendered from the current
state (name, inner value, current flag), THEN sets the flag to `INVALID`.
It is a total function: the observer type cannot fail. -/
def PrintOnDrop.drop (id : ObsId) (m : Machine) : Machine :=
  let o := m.store id
  { m with
    store := updStore m.store id { o with flag := State.INVALID },
    trace := m.trace ++ [Event.line id (dropLine m.store id)] }

/-- The safe container `MyBox1<T> { v: Box<T> }`: standard managed
ownership, no custom destructor, no raw heap traffic of its own. -/
structure MyBox1 where
  v : ObsId

/-- `MyBox1::new(t)`: wraps the observer in a `Box`. -/
def MyBox1.new (id : ObsId) (m : Machine) : MyBox1 × Machine :=
  ({ v := id }, m)

/-- Dropping a `MyBox1`: the `Box` drops its content, running the contained
observer's destructor. -/
def MyBox1.drop (b : MyBox1) (m : Machine) : Machine :=
  PrintOnDrop.drop b.v m

/-- The unmarked manual container `MyBox2<T> { v: *const T }`: holds its
`T` only through a raw address. -/
structure MyBox2 where
  v : Nat

/-- `MyBox2::new(t)`: `alloc::alloc(Layout::new::<T>())` yields a fresh
address, `ptr::write` puts the value there, and the address is stored. -/
def MyBox2.new (id : ObsId) (m : Machine) : MyBox2 × Machine :=
  let p := m.nextAddr
  ({ v := p },
   { m with
     heap := fun a => if a = p then some id else m.heap a,
     nextAddr := p + 1,
     trace := m.trace ++ [Event.alloc p] })

/-- `<MyBox2 as Drop>::drop`: `ptr::read(self.v)` moves the observer out of
the block (the resulting temporary is dropped at once, running the
observer's destructor), then `dealloc` releases the block. -/
def MyBox2.drop (b : MyBox2) (m : Machine) : Machine :=
  let m1 := match m.heap b.v with
    | some id => PrintOnDrop.drop id m
    | none => m
  { m1 with
    heap := fun a => if a = b.v then none else m1.heap a,
    trace := m1.trace ++ [Event.dealloc b.v] }

/-- The marked manual container
`MyBox3<T> { v: *const T, _pd: PhantomData<T> }`: same raw address plus the
zero-size `PhantomData<T>` marker, modelled by a `Unit` field. -/
structure MyBox3 where
  v : Nat
  _pd : Unit

/-- `MyBox3::new(t)`: identical to `MyBox2::new` except for additionally
filling the zero-size marker field with `Default::default()`. -/
def MyBox3.new (id : ObsId) (m : Machine) : MyBox3 × Machine :=
  let p := m.nextAddr
  ({ v := p, _pd := () },
   { m with
     heap := fun a => if a = p then some id else m.heap a,
     nextAddr := p + 1,
     trace := m.trace ++ [Event.alloc p] })

/-- `<MyBox3 as Drop>::drop`: textually the same body as `MyBox2`'s
destructor. -/
def MyBox3.drop (b : MyBox3) (m : Machine) : Machine :=
  let m1 := match m.heap b.v with
    | some id => PrintOnDrop.drop id m
    | none => m
  { m1 with
    heap := fun a => if a = b.v then none else m1.heap a,
    trace := m1.trace ++ [Event.dealloc b.v] }

/-- `fn f1()`: `let v1; let _mb1;` then the constructions.  Rust drops the
bindings in reverse declaration order: `_mb1` first, then `v1`. -/
def f1 (m : Machine) : Machine :=
  let m := initObs ObsId.v1 "v1" (InnerVal.int 13) m
  let m := initObs ObsId.mb1 "mb1" (InnerVal.ref ObsId.v1) m
  let (b, m) := MyBox1.new ObsId.mb1 m
  let m := MyBox1.drop b m
  PrintOnDrop.drop ObsId.v1 m

/-- `fn f2()`: two inner blocks.  First block: `let (v2a, _mb2a);` — the
pattern binds `v2a` first, so `_mb2a` is dropped first (sound order).
Second block: `let (_mb2b, v2b);` — `v2b` is dropped first, then `_mb2b`,
whose destructor drops an observer that still references `v2b` (unsound
order). -/
def f2 (m : Machine) : Machine :=
  let m := initObs ObsId.v2a "v2a" (InnerVal.int 13) m
  let m := initObs ObsId.mb2a "mb2a" (InnerVal.ref ObsId.v2a) m
  let (ba, m) := MyBox2.new ObsId.mb2a m
  let m := MyBox2.drop ba m
  let m := PrintOnDrop.drop ObsId.v2a m
  let m := initObs ObsId.v2b "v2b" (InnerVal.int 13) m
  let m := initObs ObsId.mb2b "mb2b" (InnerVal.ref ObsId.v2b) m
  let (bb, m) := MyBox2.new ObsId.mb2b m
  let m := PrintOnDrop.drop ObsId.v2b m
  MyBox2.drop bb m

/-- `fn f3()`: `let v3; let _mb3;` with the marked container; drop order is
`_mb3` first, then `v3` (the sound order, the only one the checker
accepts). -/
def f3 (m : Machine) : Machine :=
  let m := initObs ObsId.v3 "v3" (InnerVal.int 13) m
  let m := initObs ObsId.mb3 "mb3" (InnerVal.ref ObsId.v3) m
  let (b, m) := MyBox3.new ObsId.mb3 m
  let m := MyBox3.drop b m
  PrintOnDrop.drop ObsId.v3 m

/-- The machine before `main` runs: no observer initialized yet (slots hold
an inert placeholder that no routine reads before initializing it), empty
heap, empty trace. -/
def initMachine : Machine :=
  { store := fun _ => PrintOnDrop.new "" (InnerVal.int 0),
    heap := fun _ => none,
    nextAddr := 0,
    trace := [] }

/-- `fn main()`: runs `f1`, `f2`, `f3` in order. -/
def main : Machine :=
  f3 (f2 (f1 initMachine))

/-- The full event trace of the program run. -/
def programTrace : List Event :=
  main.trace

/-- The printed lines of a trace, in order: everything the program writes to
standard output (the heap events are not printed). -/
def linesOf (t : List Event) : List String :=
  t.filterMap fun e => match e with
    | Event.line _ s => some s
    | _ => none

/-- The observers a trace drops, in destruction order. -/
def droppedIds (t : List Event) : List ObsId :=
  t.filterMap fun e => match e with
    | Event.line id _ => some id
    | _ => none

/-- The addresses a trace allocates. -/
def allocatedAddrs (t : List Event) : List Nat :=
  t.filterMap fun e => match e with
    | Event.alloc a => some a
    | _ => none

/-- Everything the program prints, in order. -/
def programLines : List String :=
  linesOf programTrace

/-- The eight observer identifiers. -/
def allObs : List ObsId :=
  [ObsId.v1, ObsId.mb1, ObsId.v2a, ObsId.mb2a,
   ObsId.v2b, ObsId.mb2b, ObsId.v3, ObsId.mb3]

/-- The expected standard output, line by line. -/
def expectedLines : List String :=
  ["drop PrintOnDrop(mb1, PrintOnDrop(\"v1\", 13, Valid), Valid)",
   "drop PrintOnDrop(v1, 13, Valid)",
   "drop PrintOnDrop(mb2a, PrintOnDrop(\"v2a\", 13, Valid), Valid)",
   "drop PrintOnDrop(v2a, 13, Valid)",
   "drop PrintOnDrop(v2b, 13, Valid)",
   "drop PrintOnDrop(mb2b, PrintOnDrop(\"v2b\", 13, INVALID), Valid)",
   "drop PrintOnDrop(mb3, PrintOnDrop(\"v3\", 13, Valid), Valid)",
   "drop PrintOnDrop(v3, 13, Valid)"]

/-- Computable check that the string `p` is a prefix of `s` (character
level; every string here is ASCII). -/
def strStartsWith (p s : String) : Bool :=
  p.data.isPrefixOf s.data

/-- Computable check that the string `p` is a suffix of `s`. -/
def strEndsWith (p s : String) : Bool :=
  p.data.isSuffixOf s.data

/-- The machine after running `f1` alone. -/
def f1Run : Machine := f1 initMachine

/-- The machine after running `f3` alone. -/
def f3Run : Machine := f3 initMachine

/-- Declaration order of the two bindings of `f1`, transcribed from the
source (`let v1; let _mb1;`), each binding identified by the observer it
ends up holding. -/
def f1DeclOrder : List ObsId := [ObsId.v1, ObsId.mb1]

/-- Declaration order of the two bindings of `f3`, transcribed from the
source (`let v3; let _mb3;`). -/
def f3DeclOrder : List ObsId := [ObsId.v3, ObsId.mb3]

theorem programLines_eq : programLines = expectedLines := by decide

/-- C1: in the unmarked-unsound block of `f2` (container `_mb2b` declared
before the observer `v2b` it transitively references), the output diverges
from the declaration-order expectation: `v2b`'s own destruction line is
printed first, and the later line for `mb2b` still renders the inner
observer `v2b` — now with flag `INVALID`. -/
theorem c1_unmarked_unsound_use_after_drop :
    ∃ i j : Nat, i < j ∧
      programLines[i]? = some "drop PrintOnDrop(v2b, 13, Valid)" ∧
      programLines[j]? =
        some "drop PrintOnDrop(mb2b, PrintOnDrop(\"v2b\", 13, INVALID), Valid)" :=
  ⟨4, 5, by decide, by decide, by decide⟩

/-- C2: in each sound combination (`f1` with the safe container, the first
block of `f2`, and `f3` with the marked container) the container's
destruction line precedes the referenced observer's, and the container's
inner observer renders the referenced value with flag `Valid`. -/
theorem c2_sound_cases_container_first :
    (∃ i j : Nat, i < j ∧
      programLines[i]? =
        some "drop PrintOnDrop(mb1, PrintOnDrop(\"v1\", 13, Valid), Valid)" ∧
      programLines[j]? = some "drop PrintOnDrop(v1, 13, Valid)") ∧
    (∃ i j : Nat, i < j ∧
      programLines[i]? =
        some "drop PrintOnDrop(mb2a, PrintOnDrop(\"v2a\", 13, Valid), Valid)" ∧
      programLines[j]? = some "drop PrintOnDrop(v2a, 13, Valid)") ∧
    (∃ i j : Nat, i < j ∧
      programLines[i]? =
        some "drop PrintOnDrop(mb3, PrintOnDrop(\"v3\", 13, Valid), Valid)" ∧
      programLines[j]? = some "drop PrintOnDrop(v3, 13, Valid)") :=
  ⟨⟨0, 1, by decide, by decide, by decide⟩,
   ⟨2, 3, by decide, by decide, by decide⟩,
   ⟨6, 7, by decide, by decide, by decide⟩⟩

/-- C4: the observer destructor appends exactly one printed line (rendering
the name, the inner value and the CURRENT flag, all read from the state
before any mutation), then sets exactly this observer's flag to `INVALID`,
touching nothing else (no heap traffic, no other slot); it is a total
function, so it cannot fail.  Moreover, over the whole program run each
observer is dropped — and hence printed — exactly once. -/
theorem c4_print_on_drop_contract :
    (∀ id m,
      (PrintOnDrop.drop id m).trace =
        m.trace ++ [Event.line id (dropLine m.store id)] ∧
      (∀ j, (PrintOnDrop.drop id m).store j =
        if j = id then { m.store id with flag := State.INVALID }
        else m.store j) ∧
      (PrintOnDrop.drop id m).heap = m.heap ∧
      (PrintOnDrop.drop id m).nextAddr = m.nextAddr) ∧
    (allObs.all fun id => (droppedIds programTrace).count id == 1) = true :=
  ⟨fun _ _ => ⟨rfl, fun _ => rfl, rfl, rfl⟩, by decide⟩

/-- C5: the program's output is exactly the eight destruction-log lines of
`expectedLines`, in runtime destruction order; every line has the shape
`drop PrintOnDrop(...)`, and each observer contributes exactly one line. -/
theorem c5_output_format_and_order :
    programLines = expectedLines ∧
    (programLines.all fun l =>
      strStartsWith "drop PrintOnDrop(" l && strEndsWith ")" l) = true ∧
    (allObs.all fun id => (droppedIds programTrace).count id == 1) = true :=
  ⟨programLines_eq, by decide, by decide⟩

/-- C6 counterexample: in `f1` the printed destruction order is NOT the
declaration order — `v1` is declared first but dropped last. -/
theorem c6_counterexample :
    droppedIds f1Run.trace ≠ f1DeclOrder := by decide

/-- C6 (amended): in the safe case `f1` and the marked-sound case `f3`, the
printed destruction order is the REVERSE of the declaration order of the
values in the routine. -/
theorem c6_destruction_reverse_decl_order :
    droppedIds f1Run.trace = f1DeclOrder.reverse ∧
    droppedIds f3Run.trace = f3DeclOrder.reverse := by decide

/-- C10: in every destruction-log line the third field — the dropped
observer's own flag — is `Valid` (each line ends in `, Valid)`), every
observer is dropped at most once, and the destructor renders the line from
the state before its own invalidation; so an observer can only ever display
another value's `INVALID` state, never its own. -/
theorem c10_own_flag_valid :
    (programLines.all fun l => strEndsWith ", Valid)" l) = true ∧
    (droppedIds programTrace).Nodup ∧
    (∀ id m, (PrintOnDrop.drop id m).trace =
      m.trace ++ [Event.line id (dropLine m.store id)]) :=
  ⟨by decide, by decide, fun _ _ => rfl⟩

/-- C7: `MyBox2::new` takes the next fresh address, writes the value there,
and stores that address; the destructor (given the block still holds the
value, as it always does in this program) first drops the read-out value —
appending its destruction line — and then releases exactly its own block,
appending one `dealloc` event and clearing the block; over the whole
program run, every allocated address is released exactly once. -/
theorem c7_manual_box_alloc_dealloc :
    (∀ id m,
      ((MyBox2.new id m).1).v = m.nextAddr ∧
      ((MyBox2.new id m).2).nextAddr = m.nextAddr + 1 ∧
      (∀ a, ((MyBox2.new id m).2).heap a =
        if a = m.nextAddr then some id else m.heap a) ∧
      ((MyBox2.new id m).2).trace = m.trace ++ [Event.alloc m.nextAddr] ∧
      ((MyBox2.new id m).2).store = m.store) ∧
    (∀ b m id, m.heap b.v = some id →
      (MyBox2.drop b m).trace =
        m.trace ++ [Event.line id (dropLine m.store id), Event.dealloc b.v] ∧
      (∀ a, (MyBox2.drop b m).heap a =
        if a = b.v then none else m.heap a)) ∧
    ((allocatedAddrs programTrace).all
      fun a => programTrace.count (Event.dealloc a) == 1) = true := by
  refine ⟨fun id m => ⟨rfl, rfl, fun a => rfl, rfl, rfl⟩,
    fun b m id h => ?_, by decide⟩
  constructor
  · simp only [MyBox2.drop, h, PrintOnDrop.drop, List.append_assoc,
      List.singleton_append]
  · intro a
    simp only [MyBox2.drop, h, PrintOnDrop.drop]

/-- C7 witness: the destructor clause of `c7_manual_box_alloc_dealloc`
instantiated at the concrete machine obtained by allocating a box for
`mb2a` in the initial machine. -/
theorem c7_witness :
    (MyBox2.drop (MyBox2.new ObsId.mb2a initMachine).1
        (MyBox2.new ObsId.mb2a initMachine).2).trace =
      (MyBox2.new ObsId.mb2a initMachine).2.trace ++
        [Event.line ObsId.mb2a
          (dropLine (MyBox2.new ObsId.mb2a initMachine).2.store ObsId.mb2a),
         Event.dealloc (MyBox2.new ObsId.mb2a initMachine).1.v] :=
  (c7_manual_box_alloc_dealloc.2.1
    (MyBox2.new ObsId.mb2a initMachine).1
    (MyBox2.new ObsId.mb2a initMachine).2
    ObsId.mb2a rfl).1

/-- C8: the marked container refines the unmarked one: `MyBox3::new` stores
the same address and has exactly the same effect on the machine as
`MyBox2::new`, and dropping a `MyBox3` is the very same machine
transformation as dropping a `MyBox2` at the same address — the only
difference between the two types is the zero-size, non-stored marker field
(modelled as `Unit`). -/
theorem c8_mybox3_refines_mybox2 :
    (∀ id m,
      ((MyBox3.new id m).1).v = ((MyBox2.new id m).1).v ∧
      (MyBox3.new id m).2 = (MyBox2.new id m).2) ∧
    (∀ (a : Nat) (u : Unit) (m : Machine),
      MyBox3.drop { v := a, _pd := u } m = MyBox2.drop { v := a } m) :=
  ⟨fun _ _ => ⟨rfl, rfl⟩, fun _ _ _ => rfl⟩

/-- C9: every observer is constructed with flag `Valid`; binding a variable
writes exactly that freshly constructed observer and nothing else; the only
operation that ever mutates a flag is a destructor, which flips exactly the
dropped observer's flag to `INVALID` (container construction leaves the
whole store untouched, and a container destructor flips exactly the flag of
the observer its block holds); since every mutation writes `INVALID`, a
flag never returns to `Valid`. -/
theorem c9_flag_invariant :
    (∀ n t, (PrintOnDrop.new n t).flag = State.Valid) ∧
    (∀ id n t m j, (initObs id n t m).store j =
      if j = id then PrintOnDrop.new n t else m.store j) ∧
    (∀ id m j, ((PrintOnDrop.drop id m).store j).flag =
      if j = id then State.INVALID else (m.store j).flag) ∧
    (∀ id m, ((MyBox1.new id m).2).store = m.store ∧
      ((MyBox2.new id m).2).store = m.store ∧
      ((MyBox3.new id m).2).store = m.store) ∧
    (∀ b m j, ((MyBox1.drop b m).store j).flag =
      if j = b.v then State.INVALID else (m.store j).flag) ∧
    (∀ b m j, ((MyBox2.drop b m).store j).flag =
      if m.heap b.v = some j then State.INVALID else (m.store j).flag) ∧
    (∀ b m j, ((MyBox3.drop b m).store j).flag =
      if m.heap b.v = some j then State.INVALID else (m.store j).flag) := by
  refine ⟨fun n t => rfl, fun id n t m j => rfl, ?_, fun id m => ⟨rfl, rfl, rfl⟩,
    ?_, ?_, ?_⟩
  · intro id m j
    by_cases hj : j = id <;> simp [PrintOnDrop.drop, updStore, hj]
  · intro b m j
    by_cases hj : j = b.v <;> simp [MyBox1.drop, PrintOnDrop.drop, updStore, hj]
  · intro b m j
    rcases h : m.heap b.v with _ | id
    · simp [MyBox2.drop, h]
    · by_cases hj : j = id
      · subst hj; simp [MyBox2.drop, h, PrintOnDrop.drop, updStore]
      · simp only [MyBox2.drop, h, PrintOnDrop.drop, updStore]
        rw [if_neg hj, if_neg fun hc => hj (Option.some.inj hc).symm]
  · intro b m j
    rcases h : m.heap b.v with _ | id
    · simp [MyBox3.drop, h]
    · by_cases hj : j = id
      · subst hj; simp [MyBox3.drop, h, PrintOnDrop.drop, updStore]
      · simp only [MyBox3.drop, h, PrintOnDrop.drop, updStore]
        rw [if_neg hj, if_neg fun hc => hj (Option.some.inj hc).symm]

end PhantomDemo
